import Mathlib

/-!
Shallow embedding of the batch text-to-speech runner
src/scripts/convert_text_to_speech.py, and of the function
convert_text_to_speech of the variant src/synthesize.py, together with
theorems settling the behavioural claims about them.

Modelling conventions:
* The file system is an association list from path to file content; a
  path that is absent from the list does not exist on disk.
* The Polly collaborator is a parameter (text, voice to audio bytes or
  an error message); the S3 collaborator never has to be modelled as a
  function because, in the source, control never reaches the put call.
* Python exceptions are modelled with Except PyErr; the handler
  `except Exception` of lines 97 to 103 corresponds to catching every
  PyErr value, and an exception raised outside any try block is a
  top-level Except.error of the surrounding function.
* Observable collaborator traffic is recorded as a list of CallEvent.
-/

/-- Python default whitespace for str.strip: space, tab, LF, CR, VT, FF. -/
def pyIsSpace (c : Char) : Bool :=
  c == ' ' || c == '\t' || c == '\n' || c == '\r' || c == (Char.ofNat 11) || c == (Char.ofNat 12)

def stripChars (cs : List Char) : List Char :=
  ((cs.dropWhile pyIsSpace).reverse.dropWhile pyIsSpace).reverse

/-- Python str.strip with no argument. -/
def strip (s : String) : String := String.mk (stripChars s.data)

/-- os.path.basename: the part of the path after the last slash. -/
def basename (s : String) : String :=
  String.mk ((s.data.reverse.takeWhile (fun c => !(c == '/'))).reverse)

/-- Index of the last dot of the list, if any (Python str.rfind of a dot). -/
def lastDotIdx : List Char → Option Nat
  | [] => none
  | c :: cs =>
    match lastDotIdx cs with
    | some i => some (i + 1)
    | none => if c == '.' then some 0 else none

/-- Root part of os.path.splitext applied to a name with no directory
separators: cut at the last dot, unless the dot is at index 0 or every
character before it is itself a dot (CPython posixpath behaviour). -/
def splitext_root (name : String) : String :=
  match lastDotIdx name.data with
  | none => name
  | some i =>
    if 0 < i && (name.data.take i).any (fun c => !(c == '.')) then
      String.mk (name.data.take i)
    else name

/-- Lines 50 to 52 of src/scripts/convert_text_to_speech.py: the audio
file name derived from the base name of the source file, the voice id
and the strftime("%Y%m%d_%H%M%S") timestamp. -/
def audio_filename (file_path voice_id timestamp : String) : String :=
  splitext_root (basename file_path) ++ "_" ++ voice_id ++ "_" ++ timestamp ++ ".mp3"

/-- Line 56: the S3 object key for a conversion. -/
def s3_key_of (file_path voice_id timestamp : String) : String :=
  "audio/" ++ audio_filename file_path voice_id timestamp

/-- The process environment variables the script reads. -/
structure Env where
  aws_region : Option String
  s3_bucket : Option String
  github_sha : Option String
deriving DecidableEq

/-- Python truthiness of os.environ.get(var): false when the variable is
absent or set to the empty string. -/
def envTruthy : Option String → Bool
  | none => false
  | some s => !(s == "")

/-- Lines 106 to 124: validate_environment returns true iff both
AWS_REGION and S3_BUCKET are set and non-empty. -/
def validate_environment (env : Env) : Bool :=
  envTruthy env.aws_region && envTruthy env.s3_bucket

/-- Audio bytes returned by the synthesizer. -/
abbrev Audio := List Nat

/-- The Polly collaborator: synthesize_speech(Text, OutputFormat, VoiceId)
either returns an audio stream or raises a client error with a message. -/
abbrev Synth := String → String → Except String Audio

/-- File system: association list from path to content; first binding wins. -/
abbrev FS := List (String × String)

def fsRead (fs : FS) (p : String) : Option String :=
  match fs.find? (fun e => e.1 == p) with
  | some e => some e.2
  | none => none

/-- Writing a file: truncate/create p with content v. -/
def fsWrite (fs : FS) (p v : String) : FS := (p, v) :: fs

/-- An observable call to one of the two external collaborators. -/
inductive CallEvent where
  | synthCall (text : String) (voice : String)
  | putCall (bucket : String) (key : String)
deriving DecidableEq

/-- The Python exceptions that can arise in the modelled code paths. -/
inductive PyErr where
  | keyError (name : String)
  | nameError (name : String)
  | fileNotFound (path : String)
  | synthError (msg : String)
  | unsupportedOperation
deriving DecidableEq

/-- The result dictionary of lines 85 to 95. It is declared for
completeness: the NameError of line 71 fires before lines 85 to 95 can
run, so no value of this structure is ever built by the embedded code. -/
structure ResultDict where
  source_file : String
  audio_file : String
  s3_key : String
  voice_id : String
  character_count : Nat
  audio_size_bytes : Nat
deriving DecidableEq

/-- Lines 30 to 95 of src/scripts/convert_text_to_speech.py: the body of
the try block of convert_text_to_speech, returning the value the block
would return (none models the early return None of line 37) or the
exception it raises, together with the collaborator calls it makes.
Step by step:
* lines 32 and 33 read the file; an absent file raises FileNotFoundError;
* line 35: `if not text` is true exactly for the empty string (no
  trimming), and then line 37 returns None with no collaborator call;
* lines 43 to 47 call polly.synthesize_speech, whose failure raises a
  client error;
* line 55 reads os.environ of S3_BUCKET, raising KeyError when absent;
* line 71 evaluates str(original_length) inside the Metadata literal of
  the s3.put_object argument list; the name original_length is bound
  nowhere in the program, so a NameError is raised before s3.put_object
  can run, and lines 77 to 95 (URL, prints, result dictionary) are
  unreachable. -/
def convert_try (env : Env) (fs : FS) (synth : Synth) (timestamp : String)
    (file_path voice_id : String) : Except PyErr (Option ResultDict) × List CallEvent :=
  match fsRead fs file_path with
  | none => (Except.error (PyErr.fileNotFound file_path), [])
  | some text =>
    if text == "" then (Except.ok none, [])
    else
      match synth text voice_id with
      | Except.error m => (Except.error (PyErr.synthError m), [CallEvent.synthCall text voice_id])
      | Except.ok _audio =>
        match env.s3_bucket with
        | none => (Except.error (PyErr.keyError "S3_BUCKET"), [CallEvent.synthCall text voice_id])
        | some _bucket =>
          let _s3_key := s3_key_of file_path voice_id timestamp
          (Except.error (PyErr.nameError "original_length"), [CallEvent.synthCall text voice_id])

/-- The try block wrapped in the handler of lines 97 to 103: any
exception of the block is caught and None is returned in its place. -/
def convert_caught (env : Env) (fs : FS) (synth : Synth) (timestamp : String)
    (file_path voice_id : String) : Option ResultDict × List CallEvent :=
  match convert_try env fs synth timestamp file_path voice_id with
  | (Except.ok r, tr) => (r, tr)
  | (Except.error _, tr) => (none, tr)

/-- Lines 15 to 103: convert_text_to_speech. Lines 27 and 28 build the
boto3 clients from os.environ of AWS_REGION outside the try block, so a
missing AWS_REGION raises a KeyError that propagates to the caller; any
exception raised inside the try block is caught by the handler of lines
97 to 103, which returns None. -/
def convert_text_to_speech (env : Env) (fs : FS) (synth : Synth) (timestamp : String)
    (file_path voice_id : String) : Except PyErr (Option ResultDict × List CallEvent) :=
  match env.aws_region with
  | none => Except.error (PyErr.keyError "AWS_REGION")
  | some _ => Except.ok (convert_caught env fs synth timestamp file_path voice_id)

/-- What the loop of lines 197 to 206 does with one element of
file_paths: either the not-found branch of line 206, or a call of
convert_text_to_speech recorded with its returned value and its
collaborator calls. -/
inductive PathOutcome where
  | notFound (path : String)
  | attempted (path : String) (res : Option ResultDict) (events : List CallEvent)
deriving DecidableEq

def outcomeEvents : PathOutcome → List CallEvent
  | PathOutcome.notFound _ => []
  | PathOutcome.attempted _ _ evs => evs

def runEvents (outs : List PathOutcome) : List CallEvent :=
  (outs.map outcomeEvents).flatten

/-- Lines 198 to 206: one iteration of the processing loop. The path is
stripped; when it is non-empty and exists, convert_text_to_speech is
called (its own uncaught exceptions propagate out of the loop),
otherwise the file-not-found message of line 206 is printed. -/
def process_path (env : Env) (fs : FS) (synth : Synth) (ts : String) (voice_id : String)
    (raw : String) : Except PyErr PathOutcome :=
  let file_path := strip raw
  if !(file_path == "") && (fsRead fs file_path).isSome then
    match convert_text_to_speech env fs synth ts file_path voice_id with
    | Except.ok (r, tr) => Except.ok (PathOutcome.attempted file_path r tr)
    | Except.error e => Except.error e
  else Except.ok (PathOutcome.notFound file_path)

/-- Lines 196 to 206: the processing loop over file_paths, in order; an
exception that escapes one iteration aborts the rest of the loop. The
function tsOf gives the datetime.now() strftime string observed by the
iteration of each index, so two iterations in the same second share a
timestamp string. -/
def run_loop (env : Env) (fs : FS) (synth : Synth) (voice_id : String)
    (tsOf : Nat → String) : Nat → List String → Except PyErr (List PathOutcome)
  | _, [] => Except.ok []
  | i, p :: ps =>
    match process_path env fs synth (tsOf i) voice_id p with
    | Except.error e => Except.error e
    | Except.ok o =>
      match run_loop env fs synth voice_id tsOf (i + 1) ps with
      | Except.error e => Except.error e
      | Except.ok os => Except.ok (o :: os)

/-- Lines 201 to 203: results collects exactly the non-None values
returned by convert_text_to_speech, in loop order. -/
def results_of (outs : List PathOutcome) : List ResultDict :=
  outs.filterMap fun o =>
    match o with
    | PathOutcome.attempted _ (some r) _ => some r
    | _ => none

/-- The observable outcome of one invocation of main, lines 148 to 226:
the process exit status, the per-path outcomes of the loop, the results
list, and the contents written to conversion_results.json when the
write of lines 209 to 211 happens. -/
structure RunOutcome where
  exitCode : Nat
  outcomes : List PathOutcome
  results : List ResultDict
  summaryWritten : Option (List ResultDict)
deriving DecidableEq

/-- Lines 148 to 226: main, starting after the argument-parsing
heuristics with the parsed list of path arguments and the voice id.
In order:
* line 174 filters out arguments that are blank after stripping;
* lines 176 to 178 exit with status 1 when no path is left;
* lines 188 and 189 exit with status 1 when validate_environment fails;
* line 192 runs validate_aws_permissions, which calls sys.exit(1) when
  its probe calls fail (modelled by the boolean permOk);
* lines 196 to 206 run the processing loop;
* lines 208 to 211 write conversion_results.json only when results is
  non-empty;
* main then returns, so the interpreter exits with status 0. -/
def main_run (env : Env) (permOk : Bool) (fs : FS) (synth : Synth) (tsOf : Nat → String)
    (args : List String) (voice_id : String) : Except PyErr RunOutcome :=
  let file_paths := args.filter (fun f => !(strip f == ""))
  if file_paths == [] then Except.ok ⟨1, [], [], none⟩
  else if !(validate_environment env) then Except.ok ⟨1, [], [], none⟩
  else if !permOk then Except.ok ⟨1, [], [], none⟩
  else
    match run_loop env fs synth voice_id tsOf 0 file_paths with
    | Except.error e => Except.error e
    | Except.ok outs =>
      let results := results_of outs
      Except.ok ⟨0, outs, results, if results == [] then none else some results⟩

/-- Lines 22 and 23 of src/synthesize.py: `open(input_text_file_path, 'w')`
truncates (or creates) the file at the path to the empty string and
yields a write-only handle; the subsequent `file.read()` on that handle
raises io.UnsupportedOperation. The value is the file system as left by
the open, together with the outcome of the read. -/
def v1_read_after_open_w (fs : FS) (path : String) : FS × Except PyErr String :=
  (fsWrite fs path "", Except.error PyErr.unsupportedOperation)

/-- Lines 17 to 32 of src/synthesize.py: convert_text_to_speech of the
variant script. The with-statement opens the input file in mode w and
reads from the write-only handle, which raises; the bare except handler
of lines 30 to 32 prints and returns None. The triple is (returned
value, file system afterwards, collaborator calls). Were the read ever
to yield text, the polly call of lines 24 to 28 would still raise
locally, because its keyword OutPutFormat is not a parameter of
synthesize_speech (botocore rejects it before any service traffic), and
the bare except would again return None; so that branch too performs no
collaborator call. -/
def v1_convert_text_to_speech (fs : FS) (input_text_file_path : String) :
    Option Audio × FS × List CallEvent :=
  match v1_read_after_open_w fs input_text_file_path with
  | (fs2, Except.error _) => (none, fs2, [])
  | (fs2, Except.ok _text) => (none, fs2, [])

/-- The loop body of lines 198 to 206 under the guarantee, established
by validate_environment before the loop runs, that AWS_REGION is set:
convert_text_to_speech then raises nothing to the loop, and the
iteration yields this outcome. -/
def process_path_ok (env : Env) (fs : FS) (synth : Synth) (ts : String) (voice_id : String)
    (raw : String) : PathOutcome :=
  let file_path := strip raw
  if !(file_path == "") && (fsRead fs file_path).isSome then
    PathOutcome.attempted file_path
      (convert_caught env fs synth ts file_path voice_id).1
      (convert_caught env fs synth ts file_path voice_id).2
  else PathOutcome.notFound file_path

/-- The processing loop under the same guarantee: one outcome per path,
each the pure function of its own request alone. -/
def loop_pure (env : Env) (fs : FS) (synth : Synth) (voice_id : String)
    (tsOf : Nat → String) : Nat → List String → List PathOutcome
  | _, [] => []
  | i, p :: ps =>
    process_path_ok env fs synth (tsOf i) voice_id p ::
      loop_pure env fs synth voice_id tsOf (i + 1) ps

/-- The observable outcome of main as a total function: identical to
main_run except that the loop is the pure loop (justified below by
main_run_eq_pure). -/
def main_pure (env : Env) (permOk : Bool) (fs : FS) (synth : Synth) (tsOf : Nat → String)
    (args : List String) (voice_id : String) : RunOutcome :=
  let file_paths := args.filter (fun f => !(strip f == ""))
  if file_paths == [] then ⟨1, [], [], none⟩
  else if !(validate_environment env) then ⟨1, [], [], none⟩
  else if !permOk then ⟨1, [], [], none⟩
  else
    let outs := loop_pure env fs synth voice_id tsOf 0 file_paths
    let results := results_of outs
    ⟨0, outs, results, if results == [] then none else some results⟩

/-- A fixed valid environment used by the concrete witnesses. -/
def env0 : Env := ⟨some "us-east-1", some "polly-bucket", none⟩

/-- An environment with S3_BUCKET unset. -/
def envNoBucket : Env := ⟨some "us-east-1", none, none⟩

/-- A synthesizer that always fails with a throttling message. -/
def synthFail : Synth := fun _ _ => Except.error "ThrottlingException"

/-- A synthesizer that always succeeds with a three-byte stream. -/
def synthOk : Synth := fun _ _ => Except.ok [73, 68, 51]

/-- A clock stopped inside one second: every job of the run observes the
same strftime("%Y%m%d_%H%M%S") string. -/
def tsOf0 : Nat → String := fun _ => "20260101_120000"

/-- A one-file file system. -/
def fsA : FS := [("a.txt", "Hello")]

/-- A file system whose only file is whitespace-only. -/
def fsWS : FS := [("ws.txt", " ")]

/-- A file system with one real file and one empty file. -/
def fsAE : FS := [("a.txt", "Hello"), ("empty.txt", "")]

example : strip "  a b " = "a b" := by decide
example : basename "texts/a.txt" = "a.txt" := by decide
example : splitext_root "a.txt" = "a" := by decide
example : splitext_root ".txt" = ".txt" := by decide
example : splitext_root "a.b.c" = "a.b" := by decide
example : s3_key_of "texts/a.txt" "Joanna" "20260101_120000"
    = "audio/a_Joanna_20260101_120000.mp3" := by decide

/-- The try block can return normally only with the value None: every
branch of convert_try other than the empty-content early return raises. -/
theorem convert_try_ok_none (env : Env) (fs : FS) (synth : Synth) (ts p v : String)
    (r : Option ResultDict) (tr : List CallEvent)
    (h : convert_try env fs synth ts p v = (Except.ok r, tr)) : r = none := by
  unfold convert_try at h
  split at h
  · simp at h
  · split at h
    · simp only [Prod.mk.injEq, Except.ok.injEq] at h
      exact h.1.symm
    · split at h
      · simp at h
      · split at h
        · simp at h
        · simp at h

/-- The value component of the caught job is always None. -/
theorem convert_caught_fst (env : Env) (fs : FS) (synth : Synth) (ts p v : String) :
    (convert_caught env fs synth ts p v).1 = none := by
  unfold convert_caught
  rcases hc : convert_try env fs synth ts p v with ⟨res, tr⟩
  cases res with
  | ok r => exact convert_try_ok_none env fs synth ts p v r tr hc
  | error e => rfl

/-- With AWS_REGION set, convert_text_to_speech raises nothing: it is
the caught job. -/
theorem convert_eq_caught (env : Env) (fs : FS) (synth : Synth) (ts p v : String)
    (r : String) (hr : env.aws_region = some r) :
    convert_text_to_speech env fs synth ts p v
      = Except.ok (convert_caught env fs synth ts p v) := by
  unfold convert_text_to_speech
  rw [hr]

/-- With AWS_REGION set, one loop iteration raises nothing and computes
the pure outcome of its own request. -/
theorem process_path_eq (env : Env) (fs : FS) (synth : Synth) (ts voice raw : String)
    (r : String) (hr : env.aws_region = some r) :
    process_path env fs synth ts voice raw
      = Except.ok (process_path_ok env fs synth ts voice raw) := by
  unfold process_path process_path_ok
  by_cases hc : (!(strip raw == "") && (fsRead fs (strip raw)).isSome) = true
  · rw [if_pos hc, if_pos hc, convert_eq_caught env fs synth ts (strip raw) voice r hr]
  · rw [if_neg hc, if_neg hc]

/-- With AWS_REGION set, the loop raises nothing and computes the pure
loop. -/
theorem run_loop_eq (env : Env) (fs : FS) (synth : Synth) (voice : String)
    (tsOf : Nat → String) (r : String) (hr : env.aws_region = some r) :
    ∀ (k : Nat) (ps : List String),
      run_loop env fs synth voice tsOf k ps
        = Except.ok (loop_pure env fs synth voice tsOf k ps) := by
  intro k ps
  induction ps generalizing k with
  | nil => rfl
  | cons p ps ih =>
    unfold run_loop loop_pure
    rw [process_path_eq env fs synth (tsOf k) voice p r hr, ih (k + 1)]

/-- A successful environment validation means AWS_REGION is set. -/
theorem validate_region_some (env : Env) (h : validate_environment env = true) :
    ∃ r, env.aws_region = some r := by
  unfold validate_environment at h
  rcases Bool.and_eq_true_iff.mp h with ⟨h1, _⟩
  cases hr : env.aws_region with
  | none => rw [hr] at h1; exact absurd h1 (by simp [envTruthy])
  | some r => exact ⟨r, rfl⟩

/-- main raises nothing: its observable outcome is the pure outcome. -/
theorem main_run_eq_pure (env : Env) (permOk : Bool) (fs : FS) (synth : Synth)
    (tsOf : Nat → String) (args : List String) (voice : String) :
    main_run env permOk fs synth tsOf args voice
      = Except.ok (main_pure env permOk fs synth tsOf args voice) := by
  unfold main_run main_pure
  by_cases h1 : (args.filter (fun f => !(strip f == "")) == []) = true
  · rw [if_pos h1, if_pos h1]
  · rw [if_neg h1, if_neg h1]
    by_cases h2 : (!(validate_environment env)) = true
    · rw [if_pos h2, if_pos h2]
    · rw [if_neg h2, if_neg h2]
      by_cases h3 : (!permOk) = true
      · rw [if_pos h3, if_pos h3]
      · rw [if_neg h3, if_neg h3]
        have hv : validate_environment env = true := by
          cases hvv : validate_environment env
          · rw [hvv] at h2; exact absurd rfl h2
          · rfl
        obtain ⟨r, hr⟩ := validate_region_some env hv
        rw [run_loop_eq env fs synth voice tsOf r hr 0]

/-- The pure loop yields no result dictionary at any iteration. -/
theorem loop_pure_results_nil (env : Env) (fs : FS) (synth : Synth) (voice : String)
    (tsOf : Nat → String) :
    ∀ (k : Nat) (ps : List String),
      results_of (loop_pure env fs synth voice tsOf k ps) = [] := by
  intro k ps
  induction ps generalizing k with
  | nil => rfl
  | cons p ps ih =>
    unfold loop_pure results_of
    rw [List.filterMap_cons]
    have hnone : (convert_caught env fs synth (tsOf k) (strip p) voice).1 = none :=
      convert_caught_fst env fs synth (tsOf k) (strip p) voice
    unfold process_path_ok
    by_cases hc : (!(strip p == "") && (fsRead fs (strip p)).isSome) = true
    · rw [if_pos hc, hnone]
      exact ih (k + 1)
    · rw [if_neg hc]
      exact ih (k + 1)

/-- The pure loop produces one outcome per input path. -/
theorem loop_pure_length (env : Env) (fs : FS) (synth : Synth) (voice : String)
    (tsOf : Nat → String) :
    ∀ (k : Nat) (ps : List String),
      (loop_pure env fs synth voice tsOf k ps).length = ps.length := by
  intro k ps
  induction ps generalizing k with
  | nil => rfl
  | cons p ps ih => unfold loop_pure; simp [ih (k + 1)]

/-- The outcome at index i of the pure loop is the pure function of the
request at index i alone. -/
theorem loop_pure_get (env : Env) (fs : FS) (synth : Synth) (voice : String)
    (tsOf : Nat → String) :
    ∀ (k : Nat) (ps : List String) (i : Nat) (hi : i < ps.length)
      (ho : i < (loop_pure env fs synth voice tsOf k ps).length),
      (loop_pure env fs synth voice tsOf k ps).get ⟨i, ho⟩
        = process_path_ok env fs synth (tsOf (k + i)) voice (ps.get ⟨i, hi⟩) := by
  intro k ps
  induction ps generalizing k with
  | nil => intro i hi ho; exact absurd hi (Nat.not_lt_zero i)
  | cons p ps ih =>
    intro i hi ho
    cases i with
    | zero => rfl
    | succ j =>
      have hj : j < ps.length := Nat.lt_of_succ_lt_succ hi
      have hoj : j < (loop_pure env fs synth voice tsOf (k + 1) ps).length := by
        rw [loop_pure_length]; exact hj
      have := ih (k + 1) j hj hoj
      have harith : k + 1 + j = k + (j + 1) := by omega
      rw [harith] at this
      exact this

/-- Every accepted outcome of main has an empty results list, writes no
summary file, and its results are exactly the non-None job returns. -/
theorem main_run_results_empty (env : Env) (permOk : Bool) (fs : FS) (synth : Synth)
    (tsOf : Nat → String) (args : List String) (voice : String) (out : RunOutcome)
    (h : main_run env permOk fs synth tsOf args voice = Except.ok out) :
    out.results = [] ∧ out.summaryWritten = none ∧ out.results = results_of out.outcomes := by
  rw [main_run_eq_pure] at h
  have hout : out = main_pure env permOk fs synth tsOf args voice :=
    (Except.ok.injEq _ _ ▸ h).symm
  subst hout
  unfold main_pure
  by_cases h1 : (args.filter (fun f => !(strip f == "")) == []) = true
  · rw [if_pos h1]; exact ⟨rfl, rfl, rfl⟩
  · rw [if_neg h1]
    by_cases h2 : (!(validate_environment env)) = true
    · rw [if_pos h2]; exact ⟨rfl, rfl, rfl⟩
    · rw [if_neg h2]
      by_cases h3 : (!permOk) = true
      · rw [if_pos h3]; exact ⟨rfl, rfl, rfl⟩
      · rw [if_neg h3]
        have hres := loop_pure_results_nil env fs synth voice tsOf 0
          (args.filter (fun f => !(strip f == "")))
        simp [hres]

/-- Claim C1: for every batch run by main under a validated environment,
no error raised inside a conversion job escapes the loop (main returns
a normal outcome), every entry of the filtered path list receives
exactly one outcome, and the outcome at index i is a pure function of
request i alone, so the failure of any request cannot prevent or alter
the processing of subsequent requests. -/
theorem C1_partial_failure_isolation (env : Env) (fs : FS) (synth : Synth)
    (tsOf : Nat → String) (args : List String) (voice : String)
    (henv : validate_environment env = true) :
    ∃ out : RunOutcome,
      main_run env true fs synth tsOf args voice = Except.ok out ∧
      out.outcomes.length = (args.filter (fun f => !(strip f == ""))).length ∧
      ∀ (i : Nat) (hi : i < (args.filter (fun f => !(strip f == ""))).length)
        (ho : i < out.outcomes.length),
        out.outcomes.get ⟨i, ho⟩
          = process_path_ok env fs synth (tsOf i) voice
              ((args.filter (fun f => !(strip f == ""))).get ⟨i, hi⟩) := by
  refine ⟨_, main_run_eq_pure env true fs synth tsOf args voice, ?_⟩
  unfold main_pure
  by_cases h1 : ((args.filter (fun f => !(strip f == ""))) == []) = true
  · rw [if_pos h1]
    have hnil : args.filter (fun f => !(strip f == "")) = [] := beq_iff_eq.mp h1
    constructor
    · simp [hnil]
    · intro i hi ho
      rw [hnil] at hi
      exact absurd hi (Nat.not_lt_zero i)
  · rw [if_neg h1, if_neg (by simp [henv]), if_neg (by simp)]
    constructor
    · exact loop_pure_length env fs synth voice tsOf 0 _
    · intro i hi ho
      have hg := loop_pure_get env fs synth voice tsOf 0
        (args.filter (fun f => !(strip f == ""))) i hi ho
      rw [Nat.zero_add] at hg
      exact hg

/-- Witness for C1 at a concrete batch: one absent path followed by one
real file, with a failing synthesizer. -/
theorem C1_witness :
    validate_environment env0 = true ∧
    (∃ out : RunOutcome,
      main_run env0 true fsA synthFail tsOf0 ["bad.txt", "a.txt"] "Joanna" = Except.ok out ∧
      out.outcomes.length
        = ((["bad.txt", "a.txt"] : List String).filter (fun f => !(strip f == ""))).length ∧
      ∀ (i : Nat)
        (hi : i < ((["bad.txt", "a.txt"] : List String).filter
          (fun f => !(strip f == ""))).length)
        (ho : i < out.outcomes.length),
        out.outcomes.get ⟨i, ho⟩
          = process_path_ok env0 fsA synthFail (tsOf0 i) "Joanna"
              (((["bad.txt", "a.txt"] : List String).filter
                (fun f => !(strip f == ""))).get ⟨i, hi⟩)) :=
  ⟨by decide,
   C1_partial_failure_isolation env0 fsA synthFail tsOf0 ["bad.txt", "a.txt"] "Joanna"
     (by decide)⟩

/-- Claim C6: when AWS_REGION or S3_BUCKET is absent or empty,
validate_environment fails and main exits with status 1 before any job
is started: no outcome, no result, no collaborator call, and no summary
file. -/
theorem C6_config_fail_fast (env : Env) (permOk : Bool) (fs : FS) (synth : Synth)
    (tsOf : Nat → String) (args : List String) (voice : String)
    (habs : envTruthy env.aws_region = false ∨ envTruthy env.s3_bucket = false) :
    ∃ out : RunOutcome,
      main_run env permOk fs synth tsOf args voice = Except.ok out ∧
      out.exitCode = 1 ∧ out.outcomes = [] ∧ out.results = [] ∧
      runEvents out.outcomes = [] ∧ out.summaryWritten = none := by
  have hv : validate_environment env = false := by
    unfold validate_environment
    rcases habs with h | h <;> rw [h] <;> simp
  refine ⟨⟨1, [], [], none⟩, ?_, rfl, rfl, rfl, rfl, rfl⟩
  unfold main_run
  by_cases h1 : ((args.filter (fun f => !(strip f == ""))) == []) = true
  · rw [if_pos h1]
  · rw [if_neg h1, if_pos (by simp [hv])]

/-- Witness for C6: a run with S3_BUCKET unset over a real file. -/
theorem C6_witness :
    (envTruthy envNoBucket.aws_region = false ∨ envTruthy envNoBucket.s3_bucket = false) ∧
    (∃ out : RunOutcome,
      main_run envNoBucket true fsA synthOk tsOf0 ["a.txt"] "Joanna" = Except.ok out ∧
      out.exitCode = 1 ∧ out.outcomes = [] ∧ out.results = [] ∧
      runEvents out.outcomes = [] ∧ out.summaryWritten = none) :=
  ⟨Or.inr (by decide),
   C6_config_fail_fast envNoBucket true fsA synthOk tsOf0 ["a.txt"] "Joanna"
     (Or.inr (by decide))⟩

/-- Claim C9: the success branch of convert_text_to_speech is
unreachable. With both environment variables set, an existing non-empty
input and a succeeding synthesizer, the Metadata literal of the
s3.put_object argument list evaluates the unbound name original_length;
the NameError is caught by the handler of lines 97 to 103 and the
function returns None after exactly one synthesizer call and no store
call, instead of the result dictionary of lines 85 to 95. -/
theorem C9_success_unreachable (env : Env) (fs : FS) (synth : Synth)
    (ts p v text r b : String) (audio : Audio)
    (hr : env.aws_region = some r) (hb : env.s3_bucket = some b)
    (hf : fsRead fs p = some text) (hne : text ≠ "")
    (hs : synth text v = Except.ok audio) :
    convert_try env fs synth ts p v
      = (Except.error (PyErr.nameError "original_length"),
         [CallEvent.synthCall text v]) ∧
    convert_text_to_speech env fs synth ts p v
      = Except.ok (none, [CallEvent.synthCall text v]) := by
  have h1 : convert_try env fs synth ts p v
      = (Except.error (PyErr.nameError "original_length"),
         [CallEvent.synthCall text v]) := by
    unfold convert_try
    rw [hf]
    simp only [hs, hb]
    rw [if_neg (by simp [hne])]
  refine ⟨h1, ?_⟩
  unfold convert_text_to_speech
  rw [hr]
  unfold convert_caught
  rw [h1]

/-- Witness for C9: the file a.txt containing Hello, with a succeeding
synthesizer and both variables set. -/
theorem C9_witness :
    env0.aws_region = some "us-east-1" ∧ env0.s3_bucket = some "polly-bucket" ∧
    fsRead fsA "a.txt" = some "Hello" ∧ ("Hello" : String) ≠ "" ∧
    synthOk "Hello" "Joanna" = Except.ok [73, 68, 51] ∧
    (convert_try env0 fsA synthOk "20260101_120000" "a.txt" "Joanna"
      = (Except.error (PyErr.nameError "original_length"),
         [CallEvent.synthCall "Hello" "Joanna"]) ∧
     convert_text_to_speech env0 fsA synthOk "20260101_120000" "a.txt" "Joanna"
      = Except.ok (none, [CallEvent.synthCall "Hello" "Joanna"])) :=
  ⟨rfl, rfl, rfl, by decide, rfl,
   C9_success_unreachable env0 fsA synthOk "20260101_120000" "a.txt" "Joanna"
     "Hello" "us-east-1" "polly-bucket" [73, 68, 51] rfl rfl rfl (by decide) rfl⟩

/-- Claim C10: convert_text_to_speech of src/synthesize.py opens its
input file in write mode. For a file that exists, the call truncates it
to the empty string, performs no synthesizer call (the read on the
write-only handle raises before synthesis), returns None, and a
non-empty input file does not keep its content. -/
theorem C10_write_mode_truncates (fs : FS) (path content : String)
    (hex : fsRead fs path = some content) :
    (v1_convert_text_to_speech fs path).1 = none ∧
    (v1_convert_text_to_speech fs path).2.2 = [] ∧
    fsRead (v1_convert_text_to_speech fs path).2.1 path = some "" ∧
    (content ≠ "" →
      fsRead (v1_convert_text_to_speech fs path).2.1 path ≠ fsRead fs path) := by
  have hread : fsRead (fsWrite fs path "") path = some "" := by
    unfold fsRead fsWrite
    rw [List.find?_cons_of_pos _ (by simp)]
  refine ⟨rfl, rfl, hread, ?_⟩
  intro hc heq
  have h2 : fsRead (fsWrite fs path "") path = some content := heq.trans hex
  rw [hread] at h2
  exact hc (Option.some.injEq _ _ ▸ h2).symm

/-- Witness for C10: calling the variant on the file a.txt containing
Hello leaves the file empty and returns None with no collaborator call. -/
theorem C10_witness :
    fsRead fsA "a.txt" = some "Hello" ∧
    ((v1_convert_text_to_speech fsA "a.txt").1 = none ∧
     (v1_convert_text_to_speech fsA "a.txt").2.2 = [] ∧
     fsRead (v1_convert_text_to_speech fsA "a.txt").2.1 "a.txt" = some "" ∧
     (("Hello" : String) ≠ "" →
       fsRead (v1_convert_text_to_speech fsA "a.txt").2.1 "a.txt" ≠ fsRead fsA "a.txt")) :=
  ⟨rfl, C10_write_mode_truncates fsA "a.txt" "Hello" rfl⟩

/-- Claim C2 counterexample: a run over a single absent path records no
result at all, where the claim asserts a result with status Failed and
error_detail "not found" is recorded: the loop takes the branch of line
206 (a printed message) and appends nothing to results. -/
theorem C2_counterexample :
    main_run env0 true fsA synthFail tsOf0 ["missing.txt"] "Joanna"
      = Except.ok ⟨0, [PathOutcome.notFound "missing.txt"], [], none⟩ := by rfl

/-- Claim C2 amended: for every request whose stripped source path does
not exist, the run records no result for it: the loop iteration yields
the not-found branch without throwing, which contributes no collaborator
call and no entry to results. -/
theorem C2_missing_not_recorded (env : Env) (fs : FS) (synth : Synth)
    (ts voice raw : String) (hmiss : fsRead fs (strip raw) = none) :
    process_path env fs synth ts voice raw
      = Except.ok (PathOutcome.notFound (strip raw)) ∧
    outcomeEvents (PathOutcome.notFound (strip raw)) = [] ∧
    results_of [PathOutcome.notFound (strip raw)] = [] := by
  refine ⟨?_, rfl, rfl⟩
  unfold process_path
  rw [if_neg (by simp [hmiss])]

/-- Witness for the amended C2 at the absent path nope.txt. -/
theorem C2_witness :
    fsRead fsA (strip "nope.txt") = none ∧
    (process_path env0 fsA synthFail "20260101_120000" "Joanna" "nope.txt"
      = Except.ok (PathOutcome.notFound (strip "nope.txt")) ∧
     outcomeEvents (PathOutcome.notFound (strip "nope.txt")) = [] ∧
     results_of [PathOutcome.notFound (strip "nope.txt")] = []) :=
  ⟨rfl, C2_missing_not_recorded env0 fsA synthFail "20260101_120000" "Joanna" "nope.txt" rfl⟩

/-- Claim C3 counterexample: a run over a whitespace-only file makes a
synthesizer call with the whitespace text and records no Skipped result,
where the claim asserts a Skipped result with error_detail "empty input"
and no collaborator call: line 35 tests `not text` on the untrimmed
content, so a single space is not treated as empty. -/
theorem C3_counterexample :
    main_run env0 true fsWS synthFail tsOf0 ["ws.txt"] "Joanna"
      = Except.ok ⟨0,
          [PathOutcome.attempted "ws.txt" none [CallEvent.synthCall " " "Joanna"]],
          [], none⟩ := by rfl

/-- Claim C3 amended: only content that is exactly the empty string is
treated as empty; for such a request the job returns None with no
collaborator call and no recorded result (there is no Skipped status and
no error_detail), while whitespace-only content proceeds to synthesis. -/
theorem C3_empty_means_exactly_empty (env : Env) (fs : FS) (synth : Synth)
    (ts voice raw r : String)
    (hr : env.aws_region = some r) (hne : strip raw ≠ "")
    (hempty : fsRead fs (strip raw) = some "") :
    process_path env fs synth ts voice raw
      = Except.ok (PathOutcome.attempted (strip raw) none []) ∧
    results_of [PathOutcome.attempted (strip raw) none []] = [] := by
  have hcc : convert_caught env fs synth ts (strip raw) voice = (none, []) := by
    unfold convert_caught convert_try
    rw [hempty]
    simp
  refine ⟨?_, rfl⟩
  rw [process_path_eq env fs synth ts voice raw r hr]
  unfold process_path_ok
  rw [if_pos (by simp [hempty, hne]), hcc]

/-- Witness for the amended C3 at the empty file empty.txt. -/
theorem C3_witness :
    env0.aws_region = some "us-east-1" ∧ strip "empty.txt" ≠ "" ∧
    fsRead fsAE (strip "empty.txt") = some "" ∧
    (process_path env0 fsAE synthFail "20260101_120000" "Joanna" "empty.txt"
      = Except.ok (PathOutcome.attempted (strip "empty.txt") none []) ∧
     results_of [PathOutcome.attempted (strip "empty.txt") none []] = []) :=
  ⟨rfl, by decide, rfl,
   C3_empty_means_exactly_empty env0 fsAE synthFail "20260101_120000" "Joanna"
     "empty.txt" "us-east-1" rfl (by decide) rfl⟩

/-- Claim C4 counterexample: a best-case run (existing non-empty file,
succeeding synthesizer, valid configuration) ends with summaryWritten
none, where the claim asserts the summary is written for every run:
lines 209 to 211 guard the write with `if results`, and results is
empty. -/
theorem C4_counterexample :
    main_run env0 true fsA synthOk tsOf0 ["a.txt"] "Joanna"
      = Except.ok ⟨0,
          [PathOutcome.attempted "a.txt" none [CallEvent.synthCall "Hello" "Joanna"]],
          [], none⟩ := by rfl

/-- Claim C4 amended: conversion_results.json is written only when
results is non-empty, and results is empty in every run because no job
returns a dictionary; hence no run, however composed, writes the
summary file (the aggregate console lines of lines 214 to 225 are still
printed). -/
theorem C4_summary_never_written (env : Env) (permOk : Bool) (fs : FS) (synth : Synth)
    (tsOf : Nat → String) (args : List String) (voice : String) (out : RunOutcome)
    (h : main_run env permOk fs synth tsOf args voice = Except.ok out) :
    out.summaryWritten = none :=
  (main_run_results_empty env permOk fs synth tsOf args voice out h).2.1

/-- Witness for the amended C4 at a concrete successful-looking run. -/
theorem C4_witness :
    main_run env0 true fsA synthOk tsOf0 ["a.txt", "b.txt"] "Joanna"
      = Except.ok ⟨0,
          [PathOutcome.attempted "a.txt" none [CallEvent.synthCall "Hello" "Joanna"],
           PathOutcome.notFound "b.txt"], [], none⟩ ∧
    (⟨0, [PathOutcome.attempted "a.txt" none [CallEvent.synthCall "Hello" "Joanna"],
          PathOutcome.notFound "b.txt"], [], none⟩ : RunOutcome).summaryWritten = none :=
  ⟨rfl,
   C4_summary_never_written env0 true fsA synthOk tsOf0 ["a.txt", "b.txt"] "Joanna"
     ⟨0, [PathOutcome.attempted "a.txt" none [CallEvent.synthCall "Hello" "Joanna"],
          PathOutcome.notFound "b.txt"], [], none⟩ rfl⟩

/-- Claim C5 counterexample: a completed run whose single request fails
(absent file) exits with status 0 although no request reached Success,
where the claim requires a non-zero status for an all-Failed batch; it
also writes no summary artifact, where the claim asserts one is still
produced. -/
theorem C5_counterexample :
    main_run env0 true fsA synthFail tsOf0 ["missing2.txt"] "Joanna"
      = Except.ok ⟨0, [PathOutcome.notFound "missing2.txt"], [], none⟩ := by rfl

/-- Claim C5 amended: the exit status of a run is zero iff the filtered
path list is non-empty, validate_environment passes and the permission
probe passes; it does not depend on the per-item outcomes, so an
all-Failed batch also exits zero. -/
theorem C5_exit_zero_iff (env : Env) (permOk : Bool) (fs : FS) (synth : Synth)
    (tsOf : Nat → String) (args : List String) (voice : String) :
    ∃ out : RunOutcome,
      main_run env permOk fs synth tsOf args voice = Except.ok out ∧
      (out.exitCode = 0 ↔
        (args.filter (fun f => !(strip f == "")) ≠ [] ∧
         validate_environment env = true ∧ permOk = true)) := by
  refine ⟨_, main_run_eq_pure env permOk fs synth tsOf args voice, ?_⟩
  unfold main_pure
  by_cases h1 : ((args.filter (fun f => !(strip f == ""))) == []) = true
  · rw [if_pos h1]
    simp [beq_iff_eq.mp h1]
  · rw [if_neg h1]
    have hne : args.filter (fun f => !(strip f == "")) ≠ [] := by
      intro hnil
      exact h1 (beq_iff_eq.mpr hnil)
    by_cases h2 : (!(validate_environment env)) = true
    · rw [if_pos h2]
      have : validate_environment env = false := by
        cases hv : validate_environment env
        · rfl
        · rw [hv] at h2; exact absurd h2 (by simp)
      simp [this]
    · rw [if_neg h2]
      have hv : validate_environment env = true := by
        cases hvv : validate_environment env
        · rw [hvv] at h2; exact absurd rfl h2
        · rfl
      by_cases h3 : (!permOk) = true
      · rw [if_pos h3]
        have : permOk = false := by
          cases hp : permOk
          · rfl
          · rw [hp] at h3; exact absurd h3 (by simp)
        simp [this]
      · rw [if_neg h3]
        have hp : permOk = true := by
          cases hpp : permOk
          · rw [hpp] at h3; exact absurd rfl h3
          · rfl
        simp [hne, hv, hp]

/-- Claim C7 counterexample: two distinct inputs that share the base
name a and the voice Joanna, processed in the same second (equal
strftime string), derive the same object key, so the claimed guarantee
that keys never collide for shared base name and voice fails: the
second-granularity timestamp is not monotonically distinguishing. -/
theorem C7_counterexample :
    ("texts/a.txt" : String) ≠ "docs/a.txt" ∧
    s3_key_of "texts/a.txt" "Joanna" "20260101_120000"
      = s3_key_of "docs/a.txt" "Joanna" "20260101_120000" := by
  constructor
  · decide
  · rfl

/-- Strings appended between a common front and a common back are equal
iff they are equal. -/
theorem append_cancel_both (a m t1 t2 : String) :
    a ++ t1 ++ m = a ++ t2 ++ m ↔ t1 = t2 := by
  constructor
  · intro h
    have hd := congrArg String.data h
    simp only [String.data_append] at hd
    rw [List.append_assoc, List.append_assoc] at hd
    exact String.ext (List.append_cancel_right (List.append_cancel_left hd))
  · intro h
    rw [h]

/-- Claim C7 amended: for two source files with the same base name and
the same voice, the derived object keys are equal iff the two
second-granularity timestamp strings are equal; so two successful jobs
sharing base name and voice collide exactly when they run in the same
second, and distinctness holds only across different seconds (and the
code as written produces no Success result at all, see C9). -/
theorem C7_keys_equal_iff_timestamp_equal (p q voice t1 t2 : String)
    (hbase : splitext_root (basename p) = splitext_root (basename q)) :
    s3_key_of p voice t1 = s3_key_of q voice t2 ↔ t1 = t2 := by
  unfold s3_key_of audio_filename
  rw [hbase]
  exact append_cancel_both
    ("audio/" ++ splitext_root (basename q) ++ "_" ++ voice ++ "_") ".mp3" t1 t2

/-- Witness for the amended C7: same base name a, voice Joanna, two
timestamps one second apart give distinct keys; the same timestamp
would give equal keys. -/
theorem C7_witness :
    splitext_root (basename "x/a.txt") = splitext_root (basename "y/a.txt") ∧
    (s3_key_of "x/a.txt" "Joanna" "20260101_120000"
        = s3_key_of "y/a.txt" "Joanna" "20260101_120001"
      ↔ ("20260101_120000" : String) = "20260101_120001") :=
  ⟨rfl,
   C7_keys_equal_iff_timestamp_equal "x/a.txt" "y/a.txt" "Joanna"
     "20260101_120000" "20260101_120001" rfl⟩

/-- Claim C8 counterexample: a two-request batch (one real file, one
absent path) ends with an empty results list, so no aggregate count of
the summary sums to the number of input requests: the script prints only
len(results), and neither request contributed a result. -/
theorem C8_counterexample :
    main_run env0 true fsA synthOk tsOf0 ["a.txt", "c.txt"] "Joanna"
      = Except.ok ⟨0,
          [PathOutcome.attempted "a.txt" none [CallEvent.synthCall "Hello" "Joanna"],
           PathOutcome.notFound "c.txt"], [], none⟩ ∧
    (0 : Nat) ≠ (["a.txt", "c.txt"] : List String).length := by
  constructor
  · rfl
  · decide

/-- Claim C8 amended: results collects exactly the non-None job returns,
not one entry per request, and since no job returns a dictionary the
collected count is zero for every run whatever the number of requests;
there are no skipped or failed counts at all. -/
theorem C8_results_count (env : Env) (permOk : Bool) (fs : FS) (synth : Synth)
    (tsOf : Nat → String) (args : List String) (voice : String) (out : RunOutcome)
    (h : main_run env permOk fs synth tsOf args voice = Except.ok out) :
    out.results = results_of out.outcomes ∧ out.results.length = 0 := by
  obtain ⟨h1, _, h3⟩ := main_run_results_empty env permOk fs synth tsOf args voice out h
  exact ⟨h3, by rw [h1]; rfl⟩

/-- Witness for the amended C8 at a concrete two-request batch. -/
theorem C8_witness :
    main_run env0 true fsAE synthOk tsOf0 ["a.txt", "empty.txt"] "Joanna"
      = Except.ok ⟨0,
          [PathOutcome.attempted "a.txt" none [CallEvent.synthCall "Hello" "Joanna"],
           PathOutcome.attempted "empty.txt" none []], [], none⟩ ∧
    ((⟨0, [PathOutcome.attempted "a.txt" none [CallEvent.synthCall "Hello" "Joanna"],
           PathOutcome.attempted "empty.txt" none []], [], none⟩ : RunOutcome).results
        = results_of (⟨0,
            [PathOutcome.attempted "a.txt" none [CallEvent.synthCall "Hello" "Joanna"],
             PathOutcome.attempted "empty.txt" none []], [], none⟩ : RunOutcome).outcomes ∧
     (⟨0, [PathOutcome.attempted "a.txt" none [CallEvent.synthCall "Hello" "Joanna"],
           PathOutcome.attempted "empty.txt" none []], [], none⟩
        : RunOutcome).results.length = 0) :=
  ⟨rfl,
   C8_results_count env0 true fsAE synthOk tsOf0 ["a.txt", "empty.txt"] "Joanna"
     ⟨0, [PathOutcome.attempted "a.txt" none [CallEvent.synthCall "Hello" "Joanna"],
          PathOutcome.attempted "empty.txt" none []], [], none⟩ rfl⟩
